import Mathlib

/-!
Verification of the personal library manager (src/library_manager.py).

The program keeps an in-memory list of book records (`st.session_state.library`)
and mirrors it into a single JSON file (`library.json`).  We embed the data
model and the operations shallowly:

* a `Book` is a record of the six fields built by `add_book`;
* the `publication_year` value, which may be hand-edited in the JSON file, is
  a `Year`: an integer, a string, a boolean, or some other JSON value on
  which both `int(...)` and `.lower()` raise;
* the persisted file is abstracted by `FileContent`, distinguishing the four
  branches of `load_library`: missing file, file whose stripped content is
  empty, unparseable content, and content parsing to a list of books;
* `st.session_state` plus the file is a `LibState`; mutating operations pass
  it explicitly, and operations that can raise (`del lst[i]`, `lst[i]`,
  `book[by].lower()`) return `Option`;
* `datetime.now().strftime(...)` is an explicit `now : String` argument;
* Python float arithmetic in the percent computation is modelled by exact
  rationals, and `round(x, 1)` by `pythonRound1` (at exact `.x5` ties Python
  rounds half to even on binary floats; none of the statements below depend
  on tie behaviour).
-/

set_option autoImplicit false

namespace LibraryManager

/-- A JSON value sitting in the `publication_year` slot of a record.
`int` and `str` carry the value; `bool` is a Python boolean (for which
`int(...)` succeeds and `.lower()` raises); `other` stands for any remaining
JSON value (`null`, array, object), on which both `int(...)` and `.lower()`
raise. -/
inductive Year where
  | int (n : Int)
  | str (s : String)
  | bool (b : Bool)
  | other
  deriving Repr, DecidableEq

/-- Python `int(...)` applied to a string: strip surrounding whitespace, an
optional sign, then a nonempty digit sequence.  (Underscore separators of
Python 3.6+ are not modelled; no statement below uses them.) -/
def pyIntOfString (s : String) : Option Int :=
  let t := s.trim
  let core : List Char → Option (Bool × List Char) :=
    fun cs =>
      match cs with
      | '-' :: rest => some (true, rest)
      | '+' :: rest => some (false, rest)
      | rest => some (false, rest)
  match core t.toList with
  | none => none
  | some (neg, digits) =>
      if digits ≠ [] ∧ digits.all Char.isDigit then
        let n : Nat := digits.foldl (fun acc c => acc * 10 + (c.toNat - 48)) 0
        some (if neg then -(n : Int) else (n : Int))
      else
        none

/-- Python `int(...)` applied to a `Year` value: identity on integers,
string parsing on strings, 0/1 on booleans, and an exception (`none`)
otherwise. -/
def yearToInt : Year → Option Int
  | .int n => some n
  | .str s => pyIntOfString s
  | .bool b => some (if b then 1 else 0)
  | .other => none

/-- Python `str.lower()`: lowercase each character.  (`Char.toLower` maps
ASCII only; Python also lowercases non-ASCII letters, which no statement
below exercises.) -/
def pyLower (s : String) : String :=
  ⟨s.data.map Char.toLower⟩

/-- Python `.lower()` applied to a `Year` value: defined exactly on strings,
an `AttributeError` (`none`) otherwise. -/
def yearLower : Year → Option String
  | .str s => some (pyLower s)
  | _ => none

/-- One record of the library: the dictionary built by `add_book` in
src/library_manager.py (lines 52-59). -/
structure Book where
  title : String
  author : String
  publication_year : Year
  genre : String
  read_status : Bool
  added_date : String
  deriving Repr, DecidableEq

/-- The state of the persisted file `library.json`, split along the four
branches `load_library` distinguishes: the file does not exist; it exists but
its stripped content is empty; it exists with nonblank content on which
`json.loads` raises; or it exists with content parsing to a book list. -/
inductive FileContent where
  | absent
  | blank
  | corrupt
  | stored (lib : List Book)
  deriving Repr, DecidableEq

/-- The serialization `json.dump` writes for a collection: a nonblank,
parseable document denoting exactly that list. -/
def serialize (lib : List Book) : FileContent :=
  .stored lib

/-- The application state: the in-memory collection
(`st.session_state.library`) together with the persisted file. -/
structure LibState where
  library : List Book
  file : FileContent
  deriving Repr, DecidableEq

/-- Embedding of `save_library` (lines 46-48): serialize the full in-memory
collection to the file, overwriting it. -/
def save_library (s : LibState) : LibState :=
  { s with file := serialize s.library }

/-- Result of `load_library`: the state after loading together with whether
`st.error` was called. -/
structure LoadResult where
  state : LibState
  errorReported : Bool
  deriving Repr, DecidableEq

/-- Embedding of `load_library` (lines 30-44), by cases on the file:
missing file or blank content yield an empty collection with the file left
untouched; corrupted content reports an error, resets to empty and saves;
parseable content becomes the collection. -/
def load_library (file : FileContent) : LoadResult :=
  match file with
  | .absent => ⟨⟨[], .absent⟩, false⟩
  | .blank => ⟨⟨[], .blank⟩, false⟩
  | .corrupt => ⟨save_library ⟨[], .corrupt⟩, true⟩
  | .stored lib => ⟨⟨lib, .stored lib⟩, false⟩

/-- Embedding of `add_book` (lines 51-62): build the record, append it to the
collection, save.  `now` is the `datetime.now().strftime("%Y-%m-%d %H:%M:%S")`
stamp. -/
def add_book (s : LibState) (title author : String) (publication_year : Year)
    (genre : String) (read_status : Bool) (now : String) : LibState :=
  save_library
    { s with
      library := s.library ++
        [{ title := title, author := author,
           publication_year := publication_year, genre := genre,
           read_status := read_status, added_date := now }] }

/-- Embedding of `remove_book` (lines 64-67): `del st.session_state.library[index]`
followed by `save_library`.  The caller passes indices produced by
`enumerate`, so the index is a natural number; `del` raises `IndexError`
(`none`) exactly when it is not below the length. -/
def remove_book (s : LibState) (index : Nat) : Option LibState :=
  if index < s.library.length then
    some (save_library { s with library := s.library.eraseIdx index })
  else
    none

/-- Embedding of the toggle handler in the View Library view (lines 191-196):
`st.session_state.library[i]["read_status"] = not book["read_status"]`
followed by `save_library`.  Indexing raises (`none`) when out of range. -/
def toggle_read_status (s : LibState) (index : Nat) : Option LibState :=
  match s.library[index]? with
  | none => none
  | some book =>
      some (save_library
        { s with
          library := s.library.set index { book with read_status := !book.read_status } })

/-- Contiguous-sublist test: `needle` occurs inside `hay` when it is a
prefix of some suffix of `hay`. -/
def listIsInfix {α : Type} [BEq α] (needle hay : List α) : Bool :=
  needle.isPrefixOf hay ||
    match hay with
    | [] => false
    | _ :: t => listIsInfix needle t

/-- Python `term.lower() in hay` where `hay` is already lowercased:
substring containment of character lists. -/
def strContains (hay needle : String) : Bool :=
  listIsInfix needle.toList hay.toList

/-- Evaluation of `book[by].lower()` for a record: the lowercased field value
when the key exists and its value is a string, `none` when the lookup raises
`KeyError` or `.lower()` raises `AttributeError`. -/
def fieldLower (b : Book) (fieldName : String) : Option String :=
  if fieldName = "title" then some (pyLower b.title)
  else if fieldName = "author" then some (pyLower b.author)
  else if fieldName = "publication_year" then yearLower b.publication_year
  else if fieldName = "genre" then some (pyLower b.genre)
  else if fieldName = "read_status" then none
  else if fieldName = "added_date" then some (pyLower b.added_date)
  else none

/-- Embedding of `search_books` (lines 70-74): the list comprehension
evaluates records left to right; the first record whose field access or
`.lower()` raises aborts the whole call (`none`); otherwise the matching
records are kept in order. -/
def search_books (lib : List Book) (term fieldName : String) : Option (List Book) :=
  match lib with
  | [] => some []
  | b :: rest =>
      match fieldLower b fieldName with
      | none => none
      | some v =>
          match search_books rest term fieldName with
          | none => none
          | some r => some (if strContains v (pyLower term) then b :: r else r)

/-- Python `round(x, 1)` on an exact rational: scale by 10, round to the
nearest integer, scale back.  (Ties round half up here where Python on binary
floats rounds the nearest representable, typically half to even; no claim
below exercises a tie.) -/
def pythonRound1 (q : ℚ) : ℚ :=
  ((round (q * 10) : ℤ) : ℚ) / 10

/-- Increment the count of key `k` in an insertion-ordered association list,
the embedding of `d[k] = d.get(k, 0) + 1` on a Python dict: an existing key
is updated in place, a new key is appended at the end. -/
def bump {α : Type} [DecidableEq α] : List (α × Nat) → α → List (α × Nat)
  | [], k => [(k, 1)]
  | (k₀, n) :: rest, k =>
      if k₀ = k then (k₀, n + 1) :: rest else (k₀, n) :: bump rest k

/-- The result of `get_library_stats`. -/
structure LibStats where
  total : Nat
  read : Nat
  percent : ℚ
  genres : List (String × Nat)
  authors : List (String × Nat)
  decades : List (Int × Nat)
  deriving Repr, DecidableEq

/-- One iteration of the statistics loop (lines 84-91): bump the genre and
author counts, then try `int(b["publication_year"])`; on success bump the
decade bucket `(year // 10) * 10` (Python floor division), on exception skip
the decade update only. -/
def statsStep (acc : List (String × Nat) × List (String × Nat) × List (Int × Nat))
    (b : Book) : List (String × Nat) × List (String × Nat) × List (Int × Nat) :=
  let genres := bump acc.1 b.genre
  let authors := bump acc.2.1 b.author
  let decades :=
    match yearToInt b.publication_year with
    | some n => bump acc.2.2 (n.fdiv 10 * 10)
    | none => acc.2.2
  (genres, authors, decades)

/-- Embedding of `get_library_stats` (lines 77-100). -/
def get_library_stats (lib : List Book) : LibStats :=
  let total := lib.length
  let read := lib.countP (fun b => b.read_status)
  let maps := lib.foldl statsStep ([], [], [])
  { total := total
    read := read
    percent := pythonRound1 (if total > 0 then (read : ℚ) / (total : ℚ) * 100 else 0)
    genres := maps.1
    authors := maps.2.1
    decades := maps.2.2 }

/-! ### Helper lemmas -/

/-- Setting an index back to the element it already holds leaves the list
unchanged. -/
theorem set_self_of_getElem? {α : Type} (l : List α) (i : Nat) (a : α)
    (h : l[i]? = some a) : l.set i a = l := by
  induction l generalizing i with
  | nil => simp at h
  | cons x t ih =>
      cases i with
      | zero => simp at h; simp [List.set, h]
      | succ j => simp at h; simp [List.set, ih j h]

/-- A concrete book used to instantiate witness statements. -/
def demoBook : Book :=
  { title := "Dune", author := "Herbert", publication_year := Year.int 1965,
    genre := "Science", read_status := true,
    added_date := "2024-01-01 10:00:00" }

/-- A concrete state used to instantiate witness statements. -/
def demoState : LibState :=
  { library := [demoBook], file := FileContent.stored [demoBook] }

/-! ### Claims -/

/-- C1: after every mutating catalog operation (add, remove, toggle of
read_status) that completes, the persisted document equals the serialization
of the in-memory collection as it stands when the operation completes. -/
theorem claim_C1_mutations_persist (s s₁ s₂ : LibState) (title author : String)
    (year : Year) (genre : String) (readStatus : Bool) (now : String) (i j : Nat)
    (h₁ : remove_book s i = some s₁) (h₂ : toggle_read_status s j = some s₂) :
    (add_book s title author year genre readStatus now).file =
      serialize (add_book s title author year genre readStatus now).library ∧
    s₁.file = serialize s₁.library ∧
    s₂.file = serialize s₂.library := by
  refine ⟨rfl, ?_, ?_⟩
  · unfold remove_book at h₁
    split at h₁
    · cases h₁; rfl
    · cases h₁
  · unfold toggle_read_status at h₂
    split at h₂
    · cases h₂
    · cases h₂; rfl

/-- Witness for C1 at a concrete one-book state. -/
theorem claim_C1_mutations_persist_witness :
    remove_book demoState 0 = some ⟨[], serialize []⟩ ∧
    toggle_read_status demoState 0 =
      some ⟨[{ demoBook with read_status := false }],
            serialize [{ demoBook with read_status := false }]⟩ ∧
    ((add_book demoState "T" "A" (Year.int 2000) "Fiction" true "now").file =
        serialize (add_book demoState "T" "A" (Year.int 2000) "Fiction" true "now").library ∧
      (⟨[], serialize []⟩ : LibState).file = serialize (⟨[], serialize []⟩ : LibState).library ∧
      (⟨[{ demoBook with read_status := false }],
        serialize [{ demoBook with read_status := false }]⟩ : LibState).file =
        serialize (⟨[{ demoBook with read_status := false }],
          serialize [{ demoBook with read_status := false }]⟩ : LibState).library) :=
  ⟨by decide, by decide,
    claim_C1_mutations_persist demoState _ _ "T" "A" (Year.int 2000) "Fiction" true "now" 0 0
      (by decide) (by decide)⟩

/-- C2: loading a persisted file that is present but unparseable reports an
error to the user, resets the in-memory collection to empty, and overwrites
the file with the serialization of the empty collection; the parse failure
is not propagated (the function returns a normal result). -/
theorem claim_C2_corrupt_reset :
    (load_library FileContent.corrupt).errorReported = true ∧
    (load_library FileContent.corrupt).state.library = [] ∧
    (load_library FileContent.corrupt).state.file = serialize [] :=
  ⟨rfl, rfl, rfl⟩

/-- C3: add constructs a book with exactly the given field values plus the
current timestamp as added_date, appends it at the end of the collection,
persists, and always succeeds (it is a total function); loading from the
persisted state then yields the collection containing the added record, with
read_status and added_date as supplied. -/
theorem claim_C3_add_then_load (s : LibState) (title author : String) (year : Year)
    (genre : String) (readStatus : Bool) (now : String) :
    (add_book s title author year genre readStatus now).library =
      s.library ++ [{ title := title, author := author, publication_year := year,
                      genre := genre, read_status := readStatus, added_date := now }] ∧
    (add_book s title author year genre readStatus now).file =
      serialize (add_book s title author year genre readStatus now).library ∧
    (load_library (add_book s title author year genre readStatus now).file).state.library =
      (add_book s title author year genre readStatus now).library ∧
    { title := title, author := author, publication_year := year, genre := genre,
      read_status := readStatus, added_date := now : Book } ∈
      (load_library (add_book s title author year genre readStatus now).file).state.library := by
  refine ⟨rfl, rfl, rfl, ?_⟩
  show _ ∈ s.library ++ [_]
  simp

/-- C4: removal at index i succeeds exactly when i is in range; on success
the result has length N-1, is the original list with position i cut out
(relative order of all the other records preserved), and is persisted. -/
theorem claim_C4_remove (s : LibState) (i : Nat) :
    (i < s.library.length →
      ∃ s₁, remove_book s i = some s₁ ∧
        s₁.library.length = s.library.length - 1 ∧
        s₁.library = s.library.take i ++ s.library.drop (i + 1) ∧
        s₁.file = serialize s₁.library) ∧
    (s.library.length ≤ i → remove_book s i = none) := by
  constructor
  · intro h
    refine ⟨save_library { s with library := s.library.eraseIdx i }, ?_, ?_, ?_, rfl⟩
    · simp [remove_book, h]
    · simp [save_library, List.length_eraseIdx, h]
    · simp [save_library, List.eraseIdx_eq_take_drop_succ]
  · intro h
    simp [remove_book, Nat.not_lt.mpr h]

/-- Witness for C4: removal of index 0 from the one-book demo state, and
failure at index 1. -/
theorem claim_C4_remove_witness :
    (0 < demoState.library.length ∧
      ∃ s₁, remove_book demoState 0 = some s₁ ∧
        s₁.library.length = demoState.library.length - 1 ∧
        s₁.library = demoState.library.take 0 ++ demoState.library.drop 1 ∧
        s₁.file = serialize s₁.library) ∧
    (demoState.library.length ≤ 1 ∧ remove_book demoState 1 = none) :=
  ⟨⟨by decide, (claim_C4_remove demoState 0).1 (by decide)⟩,
   ⟨by decide, (claim_C4_remove demoState 1).2 (by decide)⟩⟩

/-- C10: loading a persisted file that exists but whose content is empty or
whitespace only resets the in-memory collection to empty, reports no error,
and leaves the file untouched: the corruption-reset path is not taken. -/
theorem claim_C10_blank_load :
    (load_library FileContent.blank).state.library = [] ∧
    (load_library FileContent.blank).errorReported = false ∧
    (load_library FileContent.blank).state.file = FileContent.blank :=
  ⟨rfl, rfl, rfl⟩

/-- Field lookup for the title key always yields the lowercased title. -/
theorem fieldLower_title (b : Book) : fieldLower b "title" = some (pyLower b.title) := rfl

/-- Field lookup for the author key always yields the lowercased author. -/
theorem fieldLower_author (b : Book) : fieldLower b "author" = some (pyLower b.author) := rfl

/-- Field lookup for the genre key always yields the lowercased genre. -/
theorem fieldLower_genre (b : Book) : fieldLower b "genre" = some (pyLower b.genre) := rfl

/-- When field access succeeds on every record, the search is exactly a filter
by case-insensitive substring containment, in list order. -/
theorem search_books_eq_filter (lib : List Book) (term fieldName : String)
    (g : Book → String) (h : ∀ b : Book, fieldLower b fieldName = some (g b)) :
    search_books lib term fieldName =
      some (lib.filter (fun b => strContains (g b) (pyLower term))) := by
  induction lib with
  | nil => rfl
  | cons b rest ih =>
      simp only [search_books, h b, ih, List.filter_cons]

/-- The search raises an exception exactly when field access or lowercasing raises on some record. -/
theorem search_books_eq_none_iff (lib : List Book) (term fieldName : String) :
    search_books lib term fieldName = none ↔
      ∃ b ∈ lib, fieldLower b fieldName = none := by
  induction lib with
  | nil => simp [search_books]
  | cons b rest ih =>
      cases hf : fieldLower b fieldName with
      | none => simp [search_books, hf]
      | some v =>
          cases hrec : search_books rest term fieldName <;>
            simp [search_books, hf, hrec, ← ih]

/-- C5: for each recognized field (title, author, genre), search returns
exactly the records whose field value contains the term case-insensitively,
as a new sequence in the original order (a sublist of the collection), and
the empty sequence when no record matches. -/
theorem claim_C5_search_filter (lib : List Book) (term : String) :
    search_books lib term "title" =
      some (lib.filter (fun b => strContains (pyLower b.title) (pyLower term))) ∧
    search_books lib term "author" =
      some (lib.filter (fun b => strContains (pyLower b.author) (pyLower term))) ∧
    search_books lib term "genre" =
      some (lib.filter (fun b => strContains (pyLower b.genre) (pyLower term))) ∧
    (lib.filter (fun b => strContains (pyLower b.title) (pyLower term))).Sublist lib ∧
    ((∀ b ∈ lib, strContains (pyLower b.title) (pyLower term) = false) →
      search_books lib term "title" = some []) := by
  refine ⟨search_books_eq_filter lib term "title" _ fieldLower_title,
    search_books_eq_filter lib term "author" _ fieldLower_author,
    search_books_eq_filter lib term "genre" _ fieldLower_genre,
    List.filter_sublist lib, ?_⟩
  intro hall
  rw [search_books_eq_filter lib term "title" _ fieldLower_title,
    List.filter_eq_nil_iff.mpr (fun b hb => by simp [hall b hb])]

/-- Witness for C5: searching the one-book demo library for a matching and a
non-matching title term. -/
theorem claim_C5_search_filter_witness :
    search_books [demoBook] "une" "title" = some [demoBook] ∧
    search_books [demoBook] "zzz" "title" = some [] := by
  constructor
  · rw [(claim_C5_search_filter [demoBook] "une").1]; decide
  · rw [(claim_C5_search_filter [demoBook] "zzz").1]; decide

/-- C6 counterexample: the field added_date is not among title, author and
genre, yet searching by it on a nonempty collection succeeds instead of
failing; likewise any unrecognized field succeeds on the empty collection. -/
theorem claim_C6_counterexample :
    ("added_date" ≠ "title" ∧ "added_date" ≠ "author" ∧ "added_date" ≠ "genre") ∧
    search_books [demoBook] "2024" "added_date" = some [demoBook] ∧
    search_books ([] : List Book) "x" "publication_year" = some [] := by
  refine ⟨by decide, by decide, rfl⟩

/-- C6 amended: search fails exactly when field access fails on some record,
that is, exactly when the collection contains a record for which the field is
read_status, an unknown key, or publication_year holding a non-string value;
in particular search by added_date never fails, and no search fails on the
empty collection. -/
theorem claim_C6_search_failure (lib : List Book) (term fieldName : String) :
    (search_books lib term fieldName = none ↔
      ∃ b ∈ lib, fieldLower b fieldName = none) ∧
    (∀ b : Book, fieldLower b fieldName = none ↔
      ((fieldName = "publication_year" ∧ yearLower b.publication_year = none) ∨
        fieldName = "read_status" ∨
        fieldName ∉ (["title", "author", "publication_year", "genre",
          "read_status", "added_date"] : List String))) := by
  refine ⟨search_books_eq_none_iff lib term fieldName, ?_⟩
  intro b
  unfold fieldLower
  split_ifs with h1 h2 h3 h4 h5 h6 <;> simp_all

/-- Witness for the amended C6: searching the one-book demo library by the
read_status field raises. -/
theorem claim_C6_search_failure_witness :
    search_books [demoBook] "x" "read_status" = none ∧
    fieldLower demoBook "read_status" = none :=
  ⟨(claim_C6_search_failure [demoBook] "x" "read_status").1.mpr
      ⟨demoBook, List.mem_cons_self demoBook [], by decide⟩,
    by decide⟩

/-- C7: at any valid index, toggling succeeds; the first application flips
the read_status of the record, leaves its other fields and every other record
unchanged and persists, and a second application does the same, restoring
the collection (in particular the read_status of the record) to its original
state. -/
theorem claim_C7_toggle_involution (s : LibState) (i : Nat) (bk : Book)
    (h : s.library[i]? = some bk) :
    ∃ s₁ s₂,
      toggle_read_status s i = some s₁ ∧
      toggle_read_status s₁ i = some s₂ ∧
      s₁.library[i]? = some { bk with read_status := !bk.read_status } ∧
      s₁.file = serialize s₁.library ∧
      s₂.file = serialize s₂.library ∧
      (∀ j, j ≠ i → s₁.library[j]? = s.library[j]?) ∧
      (∀ j, j ≠ i → s₂.library[j]? = s₁.library[j]?) ∧
      s₂.library[i]? = some bk ∧
      s₂.library = s.library := by
  obtain ⟨hi, hget⟩ := List.getElem?_eq_some_iff.mp h
  have hflip : { { bk with read_status := !bk.read_status } with
      read_status := !(!bk.read_status) } = bk := by
    simp
  have hcollapse :
      (s.library.set i { bk with read_status := !bk.read_status }).set i bk = s.library := by
    rw [List.set_set]
    exact set_self_of_getElem? s.library i bk h
  refine ⟨⟨s.library.set i { bk with read_status := !bk.read_status },
      FileContent.stored (s.library.set i { bk with read_status := !bk.read_status })⟩,
    ⟨s.library, FileContent.stored s.library⟩, ?_, ?_, ?_, rfl, rfl, ?_, ?_, h, rfl⟩
  · unfold toggle_read_status
    rw [h]
    rfl
  · unfold toggle_read_status
    show (match (s.library.set i { bk with read_status := !bk.read_status })[i]? with
      | none => none
      | some book =>
          some (save_library
            { library := (s.library.set i { bk with read_status := !bk.read_status }).set i
                { book with read_status := !book.read_status },
              file := FileContent.stored
                (s.library.set i { bk with read_status := !bk.read_status }) })) = _
    rw [List.getElem?_set_eq_of_lt _ hi]
    show some (save_library
      { library := (s.library.set i { bk with read_status := !bk.read_status }).set i
          { { bk with read_status := !bk.read_status } with
            read_status := !(!bk.read_status) },
        file := FileContent.stored
          (s.library.set i { bk with read_status := !bk.read_status }) }) = _
    rw [hflip, hcollapse]
    rfl
  · exact List.getElem?_set_eq_of_lt _ hi
  · intro j hj
    exact List.getElem?_set_ne (fun e => hj e.symm)
  · intro j hj
    exact (List.getElem?_set_ne (fun e => hj e.symm)).symm

/-- Witness for C7 at the one-book demo state, index 0. -/
theorem claim_C7_toggle_involution_witness :
    demoState.library[0]? = some demoBook ∧
    ∃ s₁ s₂,
      toggle_read_status demoState 0 = some s₁ ∧
      toggle_read_status s₁ 0 = some s₂ ∧
      s₁.library[0]? = some { demoBook with read_status := !demoBook.read_status } ∧
      s₁.file = serialize s₁.library ∧
      s₂.file = serialize s₂.library ∧
      (∀ j, j ≠ 0 → s₁.library[j]? = demoState.library[j]?) ∧
      (∀ j, j ≠ 0 → s₂.library[j]? = s₁.library[j]?) ∧
      s₂.library[0]? = some demoBook ∧
      s₂.library = demoState.library :=
  ⟨by decide, claim_C7_toggle_involution demoState 0 demoBook (by decide)⟩

/-- C8: the percent statistic is read/total as a percentage rounded to one
decimal when the collection is nonempty and 0 when it is empty (no division
by zero): it always carries at most one decimal digit, and on the empty
collection the stats are total 0, read 0, percent 0 and empty genre, author
and decade mappings. -/
theorem claim_C8_percent_and_empty (lib : List Book) :
    ((get_library_stats lib).percent =
      if 0 < (get_library_stats lib).total
        then pythonRound1 (((get_library_stats lib).read : ℚ) /
          ((get_library_stats lib).total : ℚ) * 100)
        else 0) ∧
    (∃ z : ℤ, (get_library_stats lib).percent * 10 = (z : ℚ)) ∧
    get_library_stats [] =
      { total := 0, read := 0, percent := 0, genres := [], authors := [],
        decades := [] } := by
  refine ⟨?_, ?_, ?_⟩
  · show pythonRound1 (if 0 < lib.length then _ else 0) = _
    by_cases h : 0 < lib.length
    · simp only [get_library_stats, h, if_pos]
    · simp only [get_library_stats, h, if_neg, not_false_iff, pythonRound1]
      norm_num
  · exact ⟨round ((if 0 < lib.length
        then ((lib.countP (fun b => b.read_status) : ℚ) / (lib.length : ℚ) * 100)
        else 0) * 10), by
      show ((round ((if 0 < lib.length then _ else 0) * 10) : ℤ) : ℚ) / 10 * 10 = _
      rw [div_mul_cancel₀]
      norm_num⟩
  · show LibStats.mk _ _ (pythonRound1 (if 0 < (0 : ℕ) then _ else 0)) _ _ _ = _
    simp [pythonRound1]

/-- The statistics loop threads three accumulators; component-wise it is a
fold of `bump` over the genre keys, the author keys, and the decade buckets
of the records whose publication_year converts to an integer. -/
theorem statsStep_foldl (lib : List Book) (g a : List (String × Nat))
    (d : List (Int × Nat)) :
    lib.foldl statsStep (g, a, d) =
      ((lib.map (fun b => b.genre)).foldl bump g,
       (lib.map (fun b => b.author)).foldl bump a,
       (lib.filterMap (fun b =>
          (yearToInt b.publication_year).map (fun n => n.fdiv 10 * 10))).foldl bump d) := by
  induction lib generalizing g a d with
  | nil => rfl
  | cons b rest ih =>
      cases hy : yearToInt b.publication_year with
      | none =>
          simp only [List.foldl_cons, List.map_cons, List.filterMap_cons, statsStep, hy]
          exact ih _ _ _
      | some n =>
          simp only [List.foldl_cons, List.map_cons, List.filterMap_cons, statsStep, hy,
            Option.map_some]
          exact ih _ _ _

/-- Records whose mapping fails contribute nothing to a `filterMap`, so
keeping only the succeeding ones does not change it. -/
theorem filterMap_filter_isSome {α β : Type} (f : α → Option β) (l : List α) :
    (l.filter (fun x => (f x).isSome)).filterMap f = l.filterMap f := by
  induction l with
  | nil => rfl
  | cons x t ih =>
      cases hf : f x with
      | none => simp [List.filter_cons, List.filterMap_cons, hf, ih]
      | some b => simp [List.filter_cons, List.filterMap_cons, hf, ih]

/-- C9: the decades mapping counts each record under its publication_year
floored to a multiple of 10, records whose publication_year does not convert
to an integer are skipped from the decades aggregation only (dropping them
leaves the decades mapping unchanged), and every record — convertible year
or not — is counted in total, read, genres and authors. -/
theorem claim_C9_decades_skip (lib : List Book) :
    (get_library_stats lib).decades =
      (lib.filterMap (fun b =>
        (yearToInt b.publication_year).map (fun n => n.fdiv 10 * 10))).foldl bump [] ∧
    (get_library_stats lib).decades =
      (get_library_stats
        (lib.filter (fun b => (yearToInt b.publication_year).isSome))).decades ∧
    (get_library_stats lib).total = lib.length ∧
    (get_library_stats lib).read = lib.countP (fun b => b.read_status) ∧
    (get_library_stats lib).genres = (lib.map (fun b => b.genre)).foldl bump [] ∧
    (get_library_stats lib).authors = (lib.map (fun b => b.author)).foldl bump [] := by
  have key := statsStep_foldl lib [] [] []
  have keyF := statsStep_foldl
    (lib.filter (fun b => (yearToInt b.publication_year).isSome)) [] [] []
  have hmap : ∀ b : Book,
      ((fun b => (yearToInt b.publication_year).map (fun n => n.fdiv 10 * 10)) b).isSome =
        (yearToInt b.publication_year).isSome := by
    intro b
    cases hy : yearToInt b.publication_year <;> simp [hy]
  refine ⟨?_, ?_, rfl, rfl, ?_, ?_⟩
  · show (lib.foldl statsStep ([], [], [])).2.2 = _
    rw [key]
  · show (lib.foldl statsStep ([], [], [])).2.2 =
      ((lib.filter (fun b => (yearToInt b.publication_year).isSome)).foldl
        statsStep ([], [], [])).2.2
    rw [key, keyF]
    show _ = ((lib.filter (fun b => (yearToInt b.publication_year).isSome)).filterMap
      (fun b => (yearToInt b.publication_year).map (fun n => n.fdiv 10 * 10))).foldl bump []
    rw [show lib.filter (fun b => (yearToInt b.publication_year).isSome) =
        lib.filter (fun b =>
          ((fun b => (yearToInt b.publication_year).map (fun n => n.fdiv 10 * 10)) b).isSome)
      from by simp only [hmap],
      filterMap_filter_isSome]
  · show (lib.foldl statsStep ([], [], [])).1 = _
    rw [key]
  · show (lib.foldl statsStep ([], [], [])).2.1 = _
    rw [key]

end LibraryManager
